import Mathlib

/-!
Verification of the quartz leaflet map plugin against its specification.

The embedding below follows the current generation of the plugin source:
the transformer in `core.ts` (types, constants, validators, schemas,
marker registry, map resolution) and the client runtime `inline.ts`
(marker zoom visibility, the measure tool control, the nav bootstrap
handler).  JavaScript numbers are modelled as `JSNum` (a finite rational
or NaN; the claims exercise no infinities), strings as `String`, and
absent object fields as `Option`.
-/

namespace LeafletMap

/-! ## Character classes used by the plugin's regular expressions -/

/-- Character class `[0-9]`. -/
def isDigitChar (c : Char) : Bool := '0' ≤ c && c ≤ '9'

/-- Character class `[0-9A-F]` under the `i` flag, i.e. `[0-9A-Fa-f]`. -/
def isHexChar (c : Char) : Bool :=
  isDigitChar c || ('a' ≤ c && c ≤ 'f') || ('A' ≤ c && c ≤ 'F')

/-- Character class `\s` (the ASCII part; the tested inputs contain no
exotic unicode whitespace). -/
def isSpaceChar (c : Char) : Bool :=
  c = ' ' || c = '\t' || c = '\n' || c = '\r' || c = '\x0b' || c = '\x0c'

/-- Character class `[a-z]`. -/
def isLowerChar (c : Char) : Bool := 'a' ≤ c && c ≤ 'z'

/-! ## VALIDATORS.TS: the regular-expression validators

`C.regExp.coordinatesValidation = /[0-9]+\s*,\s*[0-9]+/` is unanchored:
`test` searches for the pattern anywhere in the string.  The character
classes `[0-9]`, `\s` and `,` are pairwise disjoint, so greedy matching
without backtracking decides a match at a given start position. -/

/-- Does `/[0-9]+\s*,\s*[0-9]+/` match starting exactly at the head of `l`? -/
def coordMatchHere (l : List Char) : Bool :=
  let digits1 := l.takeWhile isDigitChar
  let rest1 := (l.dropWhile isDigitChar).dropWhile isSpaceChar
  match digits1, rest1 with
  | [], _ => false
  | _ :: _, ',' :: rest2 =>
      !((rest2.dropWhile isSpaceChar).takeWhile isDigitChar).isEmpty
  | _ :: _, _ => false

/-- Unanchored search for `/[0-9]+\s*,\s*[0-9]+/`. -/
def coordSearch : List Char → Bool
  | [] => false
  | c :: t => coordMatchHere (c :: t) || coordSearch t

/-- `coordinatesValidator` from VALIDATORS.TS: the value is a string and
`C.regExp.coordinatesValidation.test(value)` holds. -/
def coordinatesValidator (s : String) : Bool := coordSearch s.data

/-- `C.regExp.hexColourValidation = /([0-9A-F]{3}){1,2}$/i`.  The pattern
is anchored only at the end: it holds iff the string has a suffix of
length 3 or of length 6 consisting of hex digits. -/
def hexColourTest (s : String) : Bool :=
  (decide (3 ≤ s.data.length) && (s.data.drop (s.data.length - 3)).all isHexChar) ||
  (decide (6 ≤ s.data.length) && (s.data.drop (s.data.length - 6)).all isHexChar)

/-- `colourValidator` from VALIDATORS.TS: the value is a string matching
`C.regExp.hexColourValidation`. -/
def colourValidator (s : String) : Bool := hexColourTest s

/-- `C.regExp.iconValidation = /([a-z]+:)?[a-z]+([\-][a-z]+)*/` is
unanchored and its mandatory part is a single `[a-z]+` group, so `test`
succeeds iff the string contains at least one lowercase letter. -/
def iconValidator (s : String) : Bool := s.data.any isLowerChar

/-! ## JavaScript numbers -/

/-- A JavaScript number as the plugin observes it: a finite rational or
NaN (no claim exercises the infinities). -/
inductive JSNum where
  | nan : JSNum
  | num (q : ℚ) : JSNum
deriving DecidableEq

/-- `numberValidator`: `Number.isFinite(value)`. -/
def numberValidator : JSNum → Bool
  | .nan => false
  | .num _ => true

/-- `positiveNumberValidator`: `numberValidator(value) && value > 0`. -/
def positiveNumberValidator : JSNum → Bool
  | .nan => false
  | .num q => decide (0 < q)

/-- `Math.max`; NaN-propagating like the JavaScript original. -/
def jsMax : JSNum → JSNum → JSNum
  | .num a, .num b => .num (max a b)
  | _, _ => .nan

/-- `Math.min`; NaN-propagating like the JavaScript original. -/
def jsMin : JSNum → JSNum → JSNum
  | .num a, .num b => .num (min a b)
  | _, _ => .nan

/-- `clamp(value, min, max) = Math.min(Math.max(value, min), max)` from UTIL.TS. -/
def clamp (value lo hi : JSNum) : JSNum := jsMin (jsMax value lo) hi

/-! ## SCHEMAS.TS

`schemaValidatorFactory` checks, for every schema key,
`(value[key] === undefined && !validate.required) || validate.validator(value[key])`.
All validators in the schemas reject `undefined` (their `typeof` or
`Number.isFinite` tests fail on it), so on a present field only the
validator matters and on an absent field only the `required` flag.
The `isNonEmptyObject` guard compares `Object.keys.length > 0` (the
function's arity, a constant 1), so it accepts every object. -/

/-- One schema-field check: absent passes iff not required, present runs
the validator. -/
def schemaField {α : Type} (value : Option α) (required : Bool)
    (validator : α → Bool) : Bool :=
  match value with
  | none => !required
  | some v => validator v

/-- A marker declaration in the shape `markerSchema` inspects (the
`MarkerObject` interface from TYPES.TS; fields that may be absent are
`Option`). -/
structure MarkerObject where
  mapName : Option String
  coordinates : Option String
  icon : Option String
  colour : Option String
  minZoom : Option JSNum
deriving DecidableEq

/-- `SchemaValidator.marker`: in `markerSchema` only `coordinates` carries
`required: true`; `mapName`, `icon`, `colour` and `minZoom` are optional.
`stringValidator` is `typeof value === "string"`, which our typed fields
satisfy whenever present. -/
def markerValidator (m : MarkerObject) : Bool :=
  schemaField m.mapName false (fun _ => true) &&
  schemaField m.coordinates true coordinatesValidator &&
  schemaField m.icon false iconValidator &&
  schemaField m.colour false colourValidator &&
  schemaField m.minZoom false numberValidator

/-! ## MAP.TS: parsing a map declaration from a code block

`parseMapFromNode` yaml-parses the block text, requires an object with a
`views` array, and maps each view through a candidate `MapObject`
literal.  The literal always sets
`scale: parseFloat((view.scale ?? "").toString())`, so `scale` is a
number on every candidate (NaN when the author omitted it, because
`parseFloat("")` is NaN).  The first candidate passing
`SchemaValidator.map` is returned. -/

/-- One entry of the `views` array as read from the yaml (the fields the
candidate literal inspects; absent keys are `none`). -/
structure ViewEntry where
  type : Option String
  mapName : Option String
  image : Option String
  height : Option JSNum
  minZoom : Option JSNum
  maxZoom : Option JSNum
  defaultZoom : Option JSNum
  zoomDelta : Option JSNum
  scale : Option JSNum
  unit : Option String
deriving DecidableEq

/-- The candidate `MapObject` literal built in `parseMapFromNode`.  All
fields except `scale` are copied verbatim; `scale` is always a number. -/
structure MapObject where
  name : Option String
  image : Option String
  height : Option JSNum
  minZoom : Option JSNum
  maxZoom : Option JSNum
  defaultZoom : Option JSNum
  zoomDelta : Option JSNum
  scale : JSNum
  unit : Option String
deriving DecidableEq

/-- `parseFloat((view.scale ?? "").toString())`: an absent scale becomes
`parseFloat("")`, which is NaN; a present number round-trips through its
decimal rendering unchanged (NaN included, via the string "NaN"). -/
def parseScaleField : Option JSNum → JSNum
  | none => .nan
  | some n => n

/-- The object literal of `parseMapFromNode` (`name` is taken from the
view's `mapName` key). -/
def mkMapObject (v : ViewEntry) : MapObject where
  name := v.mapName
  image := v.image
  height := v.height
  minZoom := v.minZoom
  maxZoom := v.maxZoom
  defaultZoom := v.defaultZoom
  zoomDelta := v.zoomDelta
  scale := parseScaleField v.scale
  unit := v.unit

/-- `sourcevalidator`: a string value is prepared as itself and must be
truthy, so the empty string and an absent value fail.  (The multi-part
wiki-reference alternative is not exercised by any claim and is omitted.) -/
def sourceValidator : Option String → Bool
  | none => false
  | some s => !s.isEmpty

/-- `SchemaValidator.map` applied to the candidate literal: `image` is
required, the numeric fields are optional finite numbers, `zoomDelta`
must additionally be positive, and `scale` — always present on the
literal — must be finite. -/
def mapValidator (o : MapObject) : Bool :=
  schemaField o.name false (fun _ => true) &&
  sourceValidator o.image &&
  schemaField o.height false numberValidator &&
  schemaField o.minZoom false numberValidator &&
  schemaField o.maxZoom false numberValidator &&
  schemaField o.defaultZoom false numberValidator &&
  schemaField o.zoomDelta false positiveNumberValidator &&
  numberValidator o.scale &&
  schemaField o.unit false (fun _ => true)

/-- The per-view step of `parseMapFromNode`: reject views whose `type` is
not exactly "leaflet-map" (a missing or empty type is falsy and also
rejected), then validate the candidate literal. -/
def parseMapFromView (v : ViewEntry) : Option MapObject :=
  if v.type = some "leaflet-map" then
    let o := mkMapObject v
    if mapValidator o then some o else none
  else none

/-- `parseMapFromNode` over the `views` array: first valid candidate, if
any (`.map(...).filter(isNotNull).at(0)`). -/
def parseMapFromViews (vs : List ViewEntry) : Option MapObject :=
  (vs.filterMap parseMapFromView).head?

/-! ## MARKER.TS: the marker registry

`LEAFLET_MAP_PLUGIN_DATA.markerMap` maps a bucket key to the ordered list
of marker entries registered under it; the fixed key "notDefinedMap"
holds the markers declared without a map name.  `buildMarkerData` keys a
marker by its raw `mapName` string — no lowercasing and no trimming —
falling back to "notDefinedMap" when `mapName` is absent or empty
(falsy). -/

/-- A registered marker (`MarkerEntry`): the validated declaration plus
the owning document's title and slug. -/
structure MarkerEntry where
  name : String
  link : String
  mapName : Option String
  coordinates : String
  icon : Option String
  colour : Option String
  minZoom : Option JSNum
deriving DecidableEq

/-- The registry state: bucket key to ordered entries, totalised with the
empty list (an absent key is read back through `?? []`). -/
abbrev Registry := String → List MarkerEntry

/-- The registry at the start of a build: only the empty "notDefinedMap"
bucket exists. -/
def emptyRegistry : Registry := fun _ => []

/-- The fixed bucket for markers with no declared map name. -/
def notDefinedKey : String := "notDefinedMap"

/-- The bucket a marker is pushed to: `marker.mapName` when truthy, else
"notDefinedMap". -/
def bucketKey (m : MarkerEntry) : String :=
  match m.mapName with
  | none => notDefinedKey
  | some s => if s = "" then notDefinedKey else s

/-- Registering one marker appends it to the end of its bucket (creating
the bucket on first use). -/
def registerMarker (reg : Registry) (m : MarkerEntry) : Registry :=
  fun k => if k = bucketKey m then reg k ++ [m] else reg k

/-- Registering a list of markers in order (the `forEach` over the
validated entries). -/
def registerAll (reg : Registry) (ms : List MarkerEntry) : Registry :=
  ms.foldl registerMarker reg

/-- The marker lookup performed by `buildMapData`:
`[...(markerMap["notDefinedMap"] ?? []), ...(mapData.name ? markerMap[mapData.name] ?? [] : [])]`.
A falsy map name (absent or empty) contributes no named bucket. -/
def resolveMarkers (reg : Registry) (name : Option String) : List MarkerEntry :=
  reg notDefinedKey ++
    match name with
    | none => []
    | some s => if s = "" then [] else reg s

/-- `parseMarkerFromEntry`: a declaration is turned into a `MarkerEntry`
only if the schema validator accepts it (the `isProperEntry` guard holds
for every typed record here).  Validity makes `coordinates` present. -/
def parseMarkerFromEntry (entry : MarkerObject) (name link : String) :
    Option MarkerEntry :=
  if markerValidator entry then
    match entry.coordinates with
    | some c => some ⟨name, link, entry.mapName, c, entry.icon, entry.colour, entry.minZoom⟩
    | none => none
  else none

/-- A document's `frontmatter.marker` value as `buildMarkerData` case-splits
on it: an array of declarations, a single declaration object, or anything
else. -/
inductive MarkerMeta where
  | array (ms : List MarkerObject)
  | single (m : MarkerObject)
  | other

/-- `buildMarkerData` of the current transformer: it returns without
registering anything unless the document has a slug, a title and an
`Array.isArray` marker value; array entries are validated independently
and the valid ones registered in order. -/
def buildMarkerData (title slug : String) (meta : MarkerMeta)
    (reg : Registry) : Registry :=
  if title.isEmpty || slug.isEmpty then reg
  else
    match meta with
    | .array ms =>
        registerAll reg (ms.filterMap (fun entry => parseMarkerFromEntry entry title slug))
    | .single _ => reg
    | .other => reg

/-! ## MAP.TS: buildMapData

The numeric attributes of the emitted fragment, with the defaults of
`C.map.default` (minZoom 0, maxZoom 2, zoomDelta 0.5, height 600,
scale 1, unit "").  `data-scale` is `mapData.scale ?? 1`, but the
candidate literal always carries a number in `scale`, so the fallback is
never taken. -/

/-- The data attributes and marker children of the fragment emitted by
`buildMapData` (the image source resolution is an external helper and is
not modelled). -/
structure MapFragment where
  dataHeight : JSNum
  dataMinZoom : JSNum
  dataMaxZoom : JSNum
  dataDefaultZoom : JSNum
  dataZoomDelta : JSNum
  dataScale : JSNum
  dataUnit : String
  markers : List MarkerEntry
deriving DecidableEq

/-- `buildMapData` on a parsed declaration:
`minZoom = mapData.minZoom ?? 0`,
`maxZoom = Math.max(mapData.maxZoom ?? 2, minZoom)`,
`data-default-zoom = clamp(mapData.defaultZoom ?? minZoom, minZoom, maxZoom)`,
and the marker children are the resolved lookup for `mapData.name`. -/
def buildMapData (reg : Registry) (o : MapObject) : MapFragment :=
  let minZoom := o.minZoom.getD (.num 0)
  let maxZoom := jsMax (o.maxZoom.getD (.num 2)) minZoom
  { dataHeight := o.height.getD (.num 600)
    dataMinZoom := minZoom
    dataMaxZoom := maxZoom
    dataDefaultZoom := clamp (o.defaultZoom.getD minZoom) minZoom maxZoom
    dataZoomDelta := o.zoomDelta.getD (.num (1/2))
    dataScale := o.scale
    dataUnit := o.unit.getD ""
    markers := resolveMarkers reg o.name }

/-! ## Client runtime, MARKER.TS section of the inline script

`addMarker` binds a `zoomend` listener that re-evaluates
`addMarkerWhenZoom`; the marker is on the map (shown) exactly when the
ternary took the `addTo` branch at the latest zoom change.  The
comparison is `mapItem.getZoom() >= markerZoom - tolerance` with
`tolerance = 0.00001`, where `markerZoom = parseFloat(markerData.minZoom)`
is the marker's effective minimum zoom read off the fragment. -/

/-- The literal `const tolerance = 0.00001`. -/
def zoomTolerance : ℚ := 1 / 100000

/-- `addMarkerWhenZoom`: `true` means the `markerItem.addTo(mapItem)`
branch (the marker is shown), `false` the `markerItem.remove()` branch. -/
def addMarkerWhenZoom (markerZoom currentZoom : ℚ) : Bool :=
  decide (currentZoom ≥ markerZoom - zoomTolerance)

/-! ## Client runtime, CONTROL.TS section: the measure tool

`MeasureControl` keeps `state`, `pathItems` and `distance`; map clicks
are dispatched to `mapClicked`, and the tail circle marker registers a
click listener that sets the state to `Finishing`.  The visual layers
are modelled as two flags: whether the running-total preview tooltip is
on the line layer, and whether a permanent tooltip is bound to the tail
element.  The machine is polymorphic in the coordinate and distance
types so that the instantiation at the runtime's Euclidean `distance`
helper over the reals happens in the theorem. -/

/-- The `MeasureState` enum. -/
inductive MeasureState where
  | ready : MeasureState
  | measuring : MeasureState
  | finishing : MeasureState
  | done : MeasureState
deriving DecidableEq

/-- The mutable fields of `MeasureControl` that the claims observe. -/
structure MeasureSim (P D : Type) where
  state : MeasureState
  pathItems : List P
  distance : D
  previewTooltipOn : Bool
  tailTooltipPermanent : Bool

/-- The control's state when the map is bootstrapped. -/
def measureInit {P D : Type} [Zero D] : MeasureSim P D :=
  { state := .ready, pathItems := [], distance := 0,
    previewTooltipOn := false, tailTooltipPermanent := false }

/-- `renderPath`: after the click's coordinate was pushed, the running
total grows by the distance between the path's last two points
(`at(-1)` and `at(-2)`) times the map's declared scale; with fewer than
two points the total is untouched. -/
def renderPath {P D : Type} [Add D] [Mul D] (dist : P → P → D) (scale : D)
    (s : MeasureSim P D) : MeasureSim P D :=
  match s.pathItems.getLast? with
  | none => s
  | some lastC =>
      match s.pathItems.dropLast.getLast? with
      | none => s
      | some secondLastC =>
          { s with distance := s.distance + dist lastC secondLastC * scale }

/-- `resetPath`: clears the committed path and total and removes every
visual, the tail element with its tooltip included. -/
def resetPath {P D : Type} [Zero D] (s : MeasureSim P D) : MeasureSim P D :=
  { s with
    pathItems := []
    distance := 0
    previewTooltipOn := false
    tailTooltipPermanent := false }

/-- `MeasureControl.mapClicked`: the four-state dispatch.  In
`Ready`/`Measuring` the click's coordinate is appended, the path is
re-rendered (updating the total) and the preview tooltip shown; in
`Finishing` a permanent tooltip is bound to the tail, the preview
tooltip removed, and the state becomes `Done`; in `Done` the path is
reset and the state returns to `Ready`. -/
def mapClicked {P D : Type} [Add D] [Mul D] [Zero D] (dist : P → P → D)
    (scale : D) (s : MeasureSim P D) (p : P) : MeasureSim P D :=
  match s.state with
  | .ready | .measuring =>
      renderPath dist scale
        { s with
          state := .measuring
          pathItems := s.pathItems ++ [p]
          previewTooltipOn := true }
  | .finishing =>
      { s with
        state := .done
        tailTooltipPermanent := true
        previewTooltipOn := false }
  | .done => { resetPath s with state := .ready }

/-- The click listener installed on the tail circle marker by
`getCircleMarker`: it sets the state to `Finishing`. -/
def tailClicked {P D : Type} (s : MeasureSim P D) : MeasureSim P D :=
  { s with state := .finishing }

/-! ## Client runtime, INLINE.TS section: the nav bootstrap

The `nav` listener queries every `div.leaflet-map` fragment and runs an
independent async task per fragment (`maps.forEach(async (map) => ...)`):
each task extracts that fragment's markers, returns without a map when
the fragment's dataset is incomplete, awaits that fragment's own image
load, and aborts (its promise rejects) when that load fails.  No task
reads another fragment's data, so each slot's outcome is a function of
its own fragment alone. -/

/-- One `div.leaflet-map` fragment in the view, as the bootstrap observes
it: an identifier for the slot, whether `isMapDataSet` accepts its
dataset, and whether its image load resolves. -/
structure MapSlot where
  id : ℕ
  datasetComplete : Bool
  imageLoads : Bool
deriving DecidableEq

/-- The outcome of one bootstrap task. -/
inductive InitResult where
  | noMap : InitResult
  | aborted : InitResult
  | created (id : ℕ) : InitResult
deriving DecidableEq

/-- `initialiseMap` for one fragment: `undefined` on an incomplete
dataset, a rejected promise when `getImageMeta` rejects, otherwise a map
instance in that slot. -/
def initialiseMap (s : MapSlot) : InitResult :=
  if !s.datasetComplete then .noMap
  else if s.imageLoads then .created s.id
  else .aborted

/-- The `nav` handler: one independent task per fragment, in document
order. -/
def navHandler (slots : List MapSlot) : List InitResult :=
  slots.map initialiseMap

/-! ## The earlier validator generation shipped in leafletMapPlugin.ts

`isFrontmatterMarkerData` accepts an absent or empty (falsy) colour, and
otherwise lowercases it and requires membership in the fixed ten-name
palette or a match of the same end-anchored hex pattern
`/([0-9A-F]{3}){1,2}$/i`. -/

/-- The keys of `markerColourMap`. -/
def markerColourNames : List String :=
  ["green", "lime", "yellow", "pink", "blue", "lightblue", "brown",
   "orange", "red", "purple"]

/-- `toLowerCase` on one character (the inputs are ASCII, where the
JavaScript and Unicode lowercasings agree). -/
def toLowerChar (c : Char) : Char :=
  if 'A' ≤ c && c ≤ 'Z' then Char.ofNat (c.toNat + 32) else c

/-- `String.prototype.toLowerCase` over the characters. -/
def jsToLowerCase (s : String) : String := ⟨s.data.map toLowerChar⟩

/-- The colour acceptance test inside `isFrontmatterMarkerData`. -/
def legacyColourCheck : Option String → Bool
  | none => true
  | some c =>
      if c = "" then true
      else
        markerColourNames.contains (jsToLowerCase c) ||
        hexColourTest (jsToLowerCase c)

/-! ## Spec-side zoom definitions

These two definitions follow the specification's words — effective
minimum zoom is the declared one or 0, effective maximum zoom is
`max(declaredMax, minZoom)` with declared default 2 — and exist to be
compared against `buildMapData`. -/

/-- The effective minimum zoom as the spec words it. -/
def specEffectiveMinZoom (o : MapObject) : ℚ :=
  match o.minZoom with
  | some (.num q) => q
  | _ => 0

/-- The effective maximum zoom as the spec words it. -/
def specEffectiveMaxZoom (o : MapObject) : ℚ :=
  max (match o.maxZoom with | some (.num q) => q | _ => 2)
    (specEffectiveMinZoom o)

/-! ## Concrete inputs used by the claims -/

/-- A valid marker declaration naming the map "Atlas" (mixed case). -/
def atlasMarker : MarkerEntry :=
  { name := "Forge", link := "notes/forge", mapName := some "Atlas",
    coordinates := "10, 5", icon := some "mdi:anvil",
    colour := some "f44", minZoom := none }

/-- A valid marker declaration with no map name (unassigned bucket). -/
def unassignedMarker : MarkerEntry :=
  { name := "Inn", link := "notes/inn", mapName := none,
    coordinates := "1, 2", icon := some "mdi:bed",
    colour := none, minZoom := none }

/-- A valid marker declaration naming the map "atlas" (lowercase). -/
def lowerAtlasMarker : MarkerEntry := { atlasMarker with mapName := some "atlas" }

/-- A valid map declaration with minZoom 2, maxZoom 0 and no default zoom. -/
def c3Declaration : MapObject :=
  { name := none, image := some "map.png", height := none,
    minZoom := some (.num 2), maxZoom := some (.num 0),
    defaultZoom := none, zoomDelta := none, scale := .num 1, unit := none }

/-- A map view with a valid image and every numeric field omitted. -/
def omittedScaleView : ViewEntry :=
  { type := some "leaflet-map", mapName := none, image := some "map.png",
    height := none, minZoom := none, maxZoom := none, defaultZoom := none,
    zoomDelta := none, scale := none, unit := none }

/-- The same view with a scale provided. -/
def withScaleView : ViewEntry := { omittedScaleView with scale := some (.num 2) }

/-- A valid single marker declaration object (not wrapped in an array). -/
def singleMarkerDecl : MarkerObject :=
  { mapName := some "map", coordinates := some "100, 55",
    icon := some "mdi:anvil", colour := some "f44", minZoom := none }

/-- An otherwise-valid marker declaration lacking the icon field. -/
def noIconMarkerDecl : MarkerObject :=
  { mapName := none, coordinates := some "10, 5", icon := none,
    colour := none, minZoom := none }

/-- A valid marker declaration carrying an icon. -/
def iconMarkerDecl : MarkerObject :=
  { mapName := none, coordinates := some "10, 5", icon := some "mdi:anvil",
    colour := some "f44", minZoom := none }

/-- A map fragment whose dataset is complete but whose image fails to load. -/
def failingSlot : MapSlot := { id := 0, datasetComplete := true, imageLoads := false }

/-- A map fragment whose dataset is complete and whose image loads. -/
def okSlot : MapSlot := { id := 1, datasetComplete := true, imageLoads := true }

/-! # Theorems -/

/-! ## C4: the coordinates validator on the three sample strings -/

/-- C4 counterexample: the claim says `"10, -5"` is accepted, but the
pattern `[0-9]+\s*,\s*[0-9]+` has no match inside `"10, -5"` — the sign
is neither whitespace nor a digit — so `coordinatesValidator` rejects it. -/
theorem c4_counterexample : coordinatesValidator "10, -5" = false := by decide

/-- C4 (corrected): `"10,"` and `"abc, 5"` are rejected as claimed, but
`"10, -5"` is rejected as well — the unanchored pattern needs an
unsigned integer on each side of the comma, as `"10, 5"` shows. -/
theorem c4_amended :
    coordinatesValidator "10," = false ∧
    coordinatesValidator "abc, 5" = false ∧
    coordinatesValidator "10, -5" = false ∧
    coordinatesValidator "10, 5" = true := by decide

/-! ## C5: the colour validators on "ff45" -/

/-- C5 (code bug): the hex pattern is anchored only at the end, so the
four-digit string "ff45" is accepted by both validator generations via
its three-digit hex suffix "f45", while the README restricts custom
colours to exactly 3 or 6 hex digits; the current validator moreover
rejects the documented palette name "red". -/
theorem c5_code_eval :
    colourValidator "ff45" = true ∧
    colourValidator "f44" = true ∧
    colourValidator "red" = false ∧
    legacyColourCheck (some "ff45") = true ∧
    legacyColourCheck (some "red") = true := by decide

/-! ## C6: a map declaration with every numeric field omitted -/

/-- C6 (code bug): with `scale` omitted the candidate literal carries
`parseFloat("")`, i.e. NaN, which fails `numberValidator`, so the whole
declaration is dropped instead of taking the documented default
`scale = 1`; providing a scale makes the same declaration resolve with
the documented defaults for every other field. -/
theorem c6_code_eval :
    parseMapFromViews [omittedScaleView] = none ∧
    (mkMapObject omittedScaleView).scale = JSNum.nan ∧
    mapValidator (mkMapObject omittedScaleView) = false ∧
    (parseMapFromViews [withScaleView]).map (buildMapData emptyRegistry) =
      some
        { dataHeight := .num 600, dataMinZoom := .num 0,
          dataMaxZoom := .num 2, dataDefaultZoom := .num 0,
          dataZoomDelta := .num (1/2), dataScale := .num 2,
          dataUnit := "", markers := [] } :=
  ⟨by decide, rfl, by decide, rfl⟩

/-! ## C7: single-object marker metadata -/

/-- C7 (code bug): the current `buildMarkerData` registers nothing unless
the frontmatter marker value is an array, so a valid single declaration
object — the README's primary documented form — is silently ignored,
while the same declaration wrapped in an array is registered. -/
theorem c7_code_eval :
    markerValidator singleMarkerDecl = true ∧
    buildMarkerData "Smithy" "notes/smithy" (.single singleMarkerDecl)
        emptyRegistry = emptyRegistry ∧
    resolveMarkers
        (buildMarkerData "Smithy" "notes/smithy" (.array [singleMarkerDecl])
          emptyRegistry) (some "map") =
      [{ name := "Smithy", link := "notes/smithy", mapName := some "map",
         coordinates := "100, 55", icon := some "mdi:anvil",
         colour := some "f44", minZoom := none }] :=
  ⟨by decide, rfl, by decide⟩

/-! ## C8: markers without an icon field -/

/-- C8 counterexample: an otherwise-valid marker declaration lacking the
icon field is accepted by the schema validator — `markerSchema` does not
flag `icon` as required. -/
theorem c8_counterexample : markerValidator noIconMarkerDecl = true := by decide

/-- C8 (corrected): the marker schema requires only `coordinates`;
removing the icon from any accepted declaration keeps it accepted, and
every accepted declaration does carry coordinates. -/
theorem c8_amended (m : MarkerObject) (h : markerValidator m = true) :
    markerValidator { m with icon := none } = true ∧ m.coordinates ≠ none := by
  simp only [markerValidator, Bool.and_eq_true] at h
  obtain ⟨⟨⟨⟨h1, h2⟩, h3⟩, h4⟩, h5⟩ := h
  refine ⟨?_, ?_⟩
  · simp only [markerValidator, Bool.and_eq_true]
    exact ⟨⟨⟨⟨h1, h2⟩, rfl⟩, h4⟩, h5⟩
  · intro hnone
    rw [hnone] at h2
    simp [schemaField] at h2

/-- C8 witness: a concrete accepted declaration with an icon stays
accepted once the icon is removed. -/
theorem c8_witness :
    markerValidator iconMarkerDecl = true ∧
    (markerValidator { iconMarkerDecl with icon := none } = true ∧
      iconMarkerDecl.coordinates ≠ none) :=
  ⟨by decide, c8_amended iconMarkerDecl (by decide)⟩

/-! ## C1: registry registration and lookup -/

/-- After a sequence of registrations, each bucket holds exactly the
markers keyed to it, in registration order. -/
theorem registerAll_apply (ms : List MarkerEntry) (reg : Registry) (k : String) :
    registerAll reg ms k = reg k ++ ms.filter (fun m => bucketKey m = k) := by
  induction ms generalizing reg with
  | nil => simp [registerAll]
  | cons m t ih =>
      show registerAll (registerMarker reg m) t k = _
      rw [ih]
      by_cases h : bucketKey m = k
      · subst h
        simp [registerMarker, List.filter_cons, List.append_assoc]
      · simp [registerMarker, List.filter_cons, h, Ne.symm h]

/-- C1 counterexample: registration keys a marker by its raw map name,
with no lowercasing or trimming.  The record registered under "Atlas"
lands in the bucket "Atlas", so a resolution that looks the name up in
its lowercased form "atlas" does not contain it at all. -/
theorem c1_counterexample :
    bucketKey atlasMarker = "Atlas" ∧
    jsToLowerCase "Atlas" = "atlas" ∧
    atlasMarker ∉
      resolveMarkers (registerAll emptyRegistry [atlasMarker]) (some "atlas") := by
  decide

/-- C1 (corrected): lookup is by the exact map-name string — no case or
whitespace normalisation.  For a non-empty name M other than the
reserved unassigned key, resolving M yields the unassigned-bucket
records followed by the M-bucket records, each in registration order,
and a record keyed to M occurs exactly as often as it was registered. -/
theorem c1_amended (ms : List MarkerEntry) (M : String) (h1 : M ≠ "")
    (h2 : M ≠ notDefinedKey) :
    resolveMarkers (registerAll emptyRegistry ms) (some M) =
      ms.filter (fun m => bucketKey m = notDefinedKey) ++
        ms.filter (fun m => bucketKey m = M) ∧
    ∀ r : MarkerEntry, bucketKey r = M →
      (resolveMarkers (registerAll emptyRegistry ms) (some M)).count r =
        ms.count r := by
  have hres : resolveMarkers (registerAll emptyRegistry ms) (some M) =
      ms.filter (fun m => bucketKey m = notDefinedKey) ++
        ms.filter (fun m => bucketKey m = M) := by
    simp [resolveMarkers, if_neg h1, registerAll_apply, emptyRegistry]
  refine ⟨hres, fun r hr => ?_⟩
  rw [hres, List.count_append]
  have hzero : (ms.filter (fun m => bucketKey m = notDefinedKey)).count r = 0 := by
    rw [List.count_eq_zero]
    intro hmem
    have := List.of_mem_filter hmem
    rw [hr] at this
    exact h2 (by simpa using this)
  rw [hzero, List.count_filter (by simpa using hr)]
  simp

/-- C1 witness: an unassigned marker and a marker registered under
"atlas"; resolving "atlas" lists the unassigned one first and counts the
named one once. -/
theorem c1_witness :
    ("atlas" ≠ "" ∧ "atlas" ≠ notDefinedKey ∧ bucketKey lowerAtlasMarker = "atlas") ∧
    resolveMarkers (registerAll emptyRegistry [unassignedMarker, lowerAtlasMarker])
        (some "atlas") =
      List.filter (fun m => bucketKey m = notDefinedKey)
          [unassignedMarker, lowerAtlasMarker] ++
        List.filter (fun m => bucketKey m = "atlas")
          [unassignedMarker, lowerAtlasMarker] ∧
    (resolveMarkers (registerAll emptyRegistry [unassignedMarker, lowerAtlasMarker])
        (some "atlas")).count lowerAtlasMarker =
      [unassignedMarker, lowerAtlasMarker].count lowerAtlasMarker :=
  ⟨⟨by decide, by decide, by decide⟩,
   (c1_amended [unassignedMarker, lowerAtlasMarker] "atlas" (by decide) (by decide)).1,
   (c1_amended [unassignedMarker, lowerAtlasMarker] "atlas" (by decide) (by decide)).2
     lowerAtlasMarker (by decide)⟩

/-! ## C3: effective zoom bounds -/

/-- A schema-checked optional numeric field is absent or a finite number. -/
theorem optNumField_cases {o : Option JSNum}
    (h : schemaField o false numberValidator = true) :
    o = none ∨ ∃ q : ℚ, o = some (JSNum.num q) := by
  cases o with
  | none => exact Or.inl rfl
  | some v =>
      cases v with
      | nan => simp [schemaField, numberValidator] at h
      | num q => exact Or.inr ⟨q, rfl⟩

/-- C3 (confirmed): for a valid declaration, the fragment's maxZoom is
the declared maxZoom raised to at least the effective minZoom, and its
defaultZoom is the declared defaultZoom clamped into the effective
bounds, falling back to the effective minZoom when absent. -/
theorem c3_zoom_bounds (reg : Registry) (o : MapObject)
    (h : mapValidator o = true) :
    (∀ mz : ℚ, o.maxZoom = some (JSNum.num mz) →
      (buildMapData reg o).dataMaxZoom =
        JSNum.num (max mz (specEffectiveMinZoom o))) ∧
    (∀ dz : ℚ, o.defaultZoom = some (JSNum.num dz) →
      (buildMapData reg o).dataDefaultZoom =
        JSNum.num (min (max dz (specEffectiveMinZoom o)) (specEffectiveMaxZoom o))) ∧
    (o.defaultZoom = none →
      (buildMapData reg o).dataDefaultZoom = JSNum.num (specEffectiveMinZoom o)) := by
  simp only [mapValidator, Bool.and_eq_true] at h
  obtain ⟨⟨⟨⟨⟨⟨⟨⟨-, -⟩, -⟩, hminz⟩, hmaxz⟩, -⟩, -⟩, -⟩, -⟩ := h
  rcases optNumField_cases hminz with hm | ⟨mq, hm⟩ <;>
    rcases optNumField_cases hmaxz with hx | ⟨xq, hx⟩ <;>
      refine ⟨fun mz hmz => ?_, fun dz hdz => ?_, fun h0 => ?_⟩ <;>
        simp_all [buildMapData, clamp, jsMax, jsMin, specEffectiveMinZoom,
          specEffectiveMaxZoom]

/-- C3 witness: a declaration with minZoom 2 and maxZoom 0 resolves with
effective maxZoom 2, and — having no declared defaultZoom — with
defaultZoom equal to its minZoom. -/
theorem c3_witness :
    mapValidator c3Declaration = true ∧
    (buildMapData emptyRegistry c3Declaration).dataMaxZoom =
      JSNum.num (max 0 (specEffectiveMinZoom c3Declaration)) ∧
    (buildMapData emptyRegistry c3Declaration).dataDefaultZoom =
      JSNum.num (specEffectiveMinZoom c3Declaration) ∧
    specEffectiveMinZoom c3Declaration = 2 ∧
    max (0 : ℚ) 2 = 2 :=
  ⟨by decide,
   (c3_zoom_bounds emptyRegistry c3Declaration (by decide)).1 0 rfl,
   (c3_zoom_bounds emptyRegistry c3Declaration (by decide)).2.2 rfl,
   by decide, by decide⟩

/-! ## C9: independent bootstrap of the maps in a view -/

/-- C9 (confirmed): each map slot's bootstrap outcome is a function of
its own fragment alone; a fragment whose image fails to load aborts with
no map in that slot, and a fragment whose image loads gets its map —
regardless of every other fragment in the view. -/
theorem c9_independent (slots : List MapSlot) (j : ℕ) :
    (navHandler slots)[j]? = Option.map initialiseMap slots[j]? ∧
    (∀ s : MapSlot, slots[j]? = some s → s.datasetComplete = true →
      ((s.imageLoads = false → (navHandler slots)[j]? = some InitResult.aborted) ∧
       (s.imageLoads = true →
         (navHandler slots)[j]? = some (InitResult.created s.id)))) := by
  refine ⟨List.getElem?_map initialiseMap slots j,
    fun s hs hc => ⟨fun hl => ?_, fun hl => ?_⟩⟩ <;>
    simp [navHandler, List.getElem?_map, hs, initialiseMap, hc, hl]

/-- C9 witness: in a view whose first fragment's image fails and whose
second fragment's image loads, the first slot aborts and the second is
still initialised. -/
theorem c9_witness :
    (navHandler [failingSlot, okSlot])[0]? = some InitResult.aborted ∧
    (navHandler [failingSlot, okSlot])[1]? = some (InitResult.created okSlot.id) :=
  ⟨((c9_independent [failingSlot, okSlot] 0).2 failingSlot rfl rfl).1 rfl,
   ((c9_independent [failingSlot, okSlot] 1).2 okSlot rfl rfl).2 rfl⟩

/-! ## C10: marker visibility around the zoom threshold -/

/-- C10 counterexample: the visibility comparison subtracts the 0.00001
tolerance, so a marker with effective minZoom 1.5 is shown — not hidden —
at zoom 1.49999, which equals the lowered threshold exactly. -/
theorem c10_counterexample :
    addMarkerWhenZoom (3/2) (149999/100000) = true := by
  norm_num [addMarkerWhenZoom, zoomTolerance]

/-- C10 (corrected): after a zoom change the marker is shown iff the
current zoom is at least the marker's effective minZoom minus the
0.00001 tolerance; a marker with minZoom 1.5 is therefore visible at
1.5 and still visible at 1.49999, and hidden only below that, e.g. at
1.49998. -/
theorem c10_amended :
    (∀ markerZoom z : ℚ, markerZoom - zoomTolerance ≤ z →
      addMarkerWhenZoom markerZoom z = true) ∧
    (∀ markerZoom z : ℚ, z < markerZoom - zoomTolerance →
      addMarkerWhenZoom markerZoom z = false) ∧
    addMarkerWhenZoom (3/2) (3/2) = true ∧
    addMarkerWhenZoom (3/2) (149999/100000) = true ∧
    addMarkerWhenZoom (3/2) (149998/100000) = false := by
  refine ⟨?_, ?_, by norm_num [addMarkerWhenZoom, zoomTolerance],
    by norm_num [addMarkerWhenZoom, zoomTolerance],
    by norm_num [addMarkerWhenZoom, zoomTolerance]⟩
  · intro markerZoom z h
    simpa [addMarkerWhenZoom, ge_iff_le] using h
  · intro markerZoom z h
    simpa [addMarkerWhenZoom, ge_iff_le] using not_le.mpr h

/-- C10 witness: the general visibility bounds applied at the concrete
threshold 1.5 and zoom levels 2 and 1. -/
theorem c10_witness :
    ((3:ℚ)/2 - zoomTolerance ≤ 2 ∧ addMarkerWhenZoom (3/2) 2 = true) ∧
    ((1:ℚ) < 3/2 - zoomTolerance ∧ addMarkerWhenZoom (3/2) 1 = false) :=
  ⟨⟨by norm_num [zoomTolerance], c10_amended.1 (3/2) 2 (by norm_num [zoomTolerance])⟩,
   ⟨by norm_num [zoomTolerance], c10_amended.2.1 (3/2) 1 (by norm_num [zoomTolerance])⟩⟩

/-! ## C2: the measure-tool click scenario -/

/-- C2 (confirmed): the measure tool run with the `distance` helper of
the inline script (Euclidean distance on the flat plane) and scale 1.
From `Ready`, a map click at (0,0) enters `Measuring` with total 0; a
click at (3,4) makes the total 5; clicking the tail circle marker enters
`Finishing`; the next map click binds a permanent tooltip and enters
`Done`; a further map click clears the path, zeroes the total and
returns to `Ready`. -/
theorem c2_measure_scenario :
    ∃ dist : ℝ × ℝ → ℝ × ℝ → ℝ, ∃ s1 s2 s3 s4 s5 : MeasureSim (ℝ × ℝ) ℝ,
      dist = (fun a b => Real.sqrt ((a.1 - b.1) ^ 2 + (a.2 - b.2) ^ 2)) ∧
      s1 = mapClicked dist 1 measureInit ((0 : ℝ), (0 : ℝ)) ∧
      s2 = mapClicked dist 1 s1 (3, 4) ∧
      s3 = tailClicked s2 ∧
      s4 = mapClicked dist 1 s3 (7, 7) ∧
      s5 = mapClicked dist 1 s4 (1, 1) ∧
      (s1.state = .measuring ∧ s1.distance = 0) ∧
      (s2.state = .measuring ∧ s2.distance = 5) ∧
      s3.state = .finishing ∧
      (s4.state = .done ∧ s4.tailTooltipPermanent = true) ∧
      (s5.state = .ready ∧ s5.pathItems = [] ∧ s5.distance = 0) := by
  have h25 : Real.sqrt ((25 : ℝ)) = 5 := by
    rw [show (25 : ℝ) = 5 ^ 2 by norm_num]
    exact Real.sqrt_sq (by norm_num)
  refine ⟨_, _, _, _, _, _, rfl, rfl, rfl, rfl, rfl, rfl, ?_, ?_, ?_, ?_, ?_⟩ <;>
    norm_num [mapClicked, measureInit, renderPath, tailClicked, resetPath, h25]

end LeafletMap
